import Mathlib

/-!
Verification of the Extractor API server (`src/extractor/src/extractor/main.py`).

The file shallowly embeds the data model and the two endpoints the claims
are about: `GET /schema` and `POST /extract`.  JSON values are embedded as
an inductive `Json`; the pydantic request models become structures together
with an explicit validation function mirroring pydantic's parse of a JSON
body; the langextract engine is a parameter (a function from the handler's
arguments to either a result object or an exception message); the result
normalization is embedded field by field, with `hasattr` probes rendered as
`Option`-valued attributes.
-/

namespace Extractor

/-- JSON values, the payloads crossing the HTTP boundary.  Numbers are kept
abstract as integers; the claims never do numeric arithmetic. -/
inductive Json where
  | null : Json
  | bool (b : Bool) : Json
  | num (n : Int) : Json
  | str (s : String) : Json
  | arr (xs : List Json) : Json
  | obj (kvs : List (String × Json)) : Json

/-- First value bound to key `k` in an object's key-value list, as Python
dict lookup (request bodies parsed by FastAPI have unique keys). -/
def getField (kvs : List (String × Json)) (k : String) : Option Json :=
  (kvs.find? (fun kv => kv.1 == k)).map (fun kv => kv.2)

/-- Key lookup on an object value; `none` on non-objects or absent keys. -/
def lookupKey (j : Json) (k : String) : Option Json :=
  match j with
  | .obj kvs => getField kvs k
  | _ => none

/-- Pydantic model `Extraction` (request side): `extraction_class: str`,
`extraction_text: str`, `attributes: Dict[str, Any]` with default `{}`.
The attributes dict is carried as the `Json` object it was parsed from. -/
structure Extraction where
  extraction_class : String
  extraction_text : String
  attributes : Json

/-- Pydantic model `Example`: `text: str`, `extractions: List[Extraction]`. -/
structure Example where
  text : String
  extractions : List Extraction

/-- Pydantic model `ExtractionRequest`: all four fields required. -/
structure ExtractionRequest where
  prompt_description : String
  examples : List Example
  text_or_documents : String
  model_id : String

/-- Pydantic model `ExtractionResponse`: the success envelope the handler
returns (`success`, optional `result`, optional `message`). -/
structure ExtractionResponse where
  success : Bool
  result : Option Json
  message : Option String

/-- `lx.data.Extraction`: the engine's native extraction representation,
built by the handler from a request `Extraction`. -/
structure LxExtraction where
  extraction_class : String
  extraction_text : String
  attributes : Json

/-- `lx.data.ExampleData`: the engine's native example representation. -/
structure LxExampleData where
  text : String
  extractions : List LxExtraction

/-- The translation of one request `Extraction` into `lx.data.Extraction`
(main.py lines 92-96): each field is passed through unchanged. -/
def toLxExtraction (e : Extraction) : LxExtraction :=
  { extraction_class := e.extraction_class
    extraction_text := e.extraction_text
    attributes := e.attributes }

/-- The translation of one request `Example` into `lx.data.ExampleData`
(main.py lines 88-99): text passed through, extractions mapped in order. -/
def toLxExample (ex : Example) : LxExampleData :=
  { text := ex.text
    extractions := ex.extractions.map toLxExtraction }

/-- The `for example in data.examples: examples.append(...)` loop
(main.py lines 86-100): appends translations in order. -/
def translateExamples (exs : List Example) : List LxExampleData :=
  exs.map toLxExample

/-- An engine-side `CharInterval`-like object.  `none` in a field means the
attribute is ABSENT from the object, so that reading it raises
`AttributeError`; the handler reads `start_pos` and `end_pos` without any
`hasattr` probe. -/
structure EngineCharInterval where
  start_pos : Option Json
  end_pos : Option Json

/-- An extraction inside the engine's result object.  For each attribute the
handler probes with `hasattr`, the outer `Option` is presence (`none` =
attribute absent, `hasattr` false).  For `char_interval` the inner `Option`
is Python truthiness of the value: `none` stands for `None` (falsy), `some`
for a `CharInterval`-like object (truthy). -/
structure EngineExtraction where
  extraction_class : String
  extraction_text : String
  attributes : Json
  char_interval : Option (Option EngineCharInterval)
  alignment_status : Option Json
  extraction_index : Option Json
  group_index : Option Json
  description : Option Json

/-- The engine's result object (`AnnotatedDocument`): `text` and
`extractions` are read unguarded, `document_id` is probed with `hasattr`
(`none` = attribute absent). -/
structure EngineResult where
  text : String
  document_id : Option Json
  extractions : List EngineExtraction

/-- The external `lx.extract` call: from the handler's four arguments
(`text_or_documents`, `prompt_description`, `examples`, `model_id`) to
either a result object or a raised exception's message. -/
abbrev EngineFn :=
  String → String → List LxExampleData → String → Except String EngineResult

/-- Left-to-right effectful map over a list, as a Python list comprehension:
elements are evaluated in order and the first raised exception propagates. -/
def mapE (f : α → Except String β) : List α → Except String (List β)
  | [] => .ok []
  | x :: xs =>
    match f x with
    | .error e => .error e
    | .ok y =>
      match mapE f xs with
      | .error e => .error e
      | .ok ys => .ok (y :: ys)

/-- A `hasattr`-probed attribute serialized into the response:
absent attributes become JSON null (main.py lines 130-145). -/
def optAttr : Option Json → Json
  | none => .null
  | some v => v

/-- The `char_interval` entry of the serialized extraction (main.py lines
122-129): `hasattr(ext, "char_interval") and ext.char_interval` guards the
access; when the guard holds, `start_pos` and `end_pos` are read with no
probe, so an absent inner field raises `AttributeError`. -/
def normalizeCharInterval : Option (Option EngineCharInterval) → Except String Json
  | none => .ok .null
  | some none => .ok .null
  | some (some ci) =>
    match ci.start_pos with
    | none => .error "AttributeError: start_pos"
    | some sp =>
      match ci.end_pos with
      | none => .error "AttributeError: end_pos"
      | some ep => .ok (.obj [("start_pos", sp), ("end_pos", ep)])

/-- Serialization of one engine extraction into the response dict
(main.py lines 118-146). -/
def normalizeExtraction (e : EngineExtraction) : Except String Json :=
  match normalizeCharInterval e.char_interval with
  | .error msg => .error msg
  | .ok ci =>
    .ok (.obj
      [("extraction_class", .str e.extraction_class),
       ("extraction_text", .str e.extraction_text),
       ("attributes", e.attributes),
       ("char_interval", ci),
       ("alignment_status", optAttr e.alignment_status),
       ("extraction_index", optAttr e.extraction_index),
       ("group_index", optAttr e.group_index),
       ("description", optAttr e.description)])

/-- Serialization of the engine result into `result_dict`
(main.py lines 110-149). -/
def normalizeResult (r : EngineResult) : Except String Json :=
  match mapE normalizeExtraction r.extractions with
  | .error msg => .error msg
  | .ok exts =>
    .ok (.obj
      [("text", .str r.text),
       ("document_id", optAttr r.document_id),
       ("extractions", .arr exts)])

/-- A single pydantic validation error: location path and message. -/
structure FieldError where
  loc : List String
  msg : String
deriving DecidableEq

/-- Result of pydantic-style validation: a value or a list of errors. -/
abbrev P (α : Type) := Except (List FieldError) α

/-- Validate two independent parts, collecting errors from both, as
pydantic does across the fields of a model. -/
def comb2 : P α → P β → P (α × β)
  | .ok a, .ok b => .ok (a, b)
  | .error ea, .error eb => .error (ea ++ eb)
  | .error ea, .ok _ => .error ea
  | .ok _, .error eb => .error eb

/-- A required `str` field: absent key or non-string value is an error. -/
def parseStrField (loc : List String) (kvs : List (String × Json)) (k : String) : P String :=
  match getField kvs k with
  | none => .error [⟨loc ++ [k], "Field required"⟩]
  | some (.str s) => .ok s
  | some _ => .error [⟨loc ++ [k], "Input should be a valid string"⟩]

/-- Validate the elements of a list field one by one (index `i` gives the
error location), collecting errors across elements as pydantic does. -/
def parseElems (f : List String → Json → P α) (loc : List String) :
    Nat → List Json → P (List α)
  | _, [] => .ok []
  | i, x :: xs =>
    match f (loc ++ [toString i]) x, parseElems f loc (i + 1) xs with
    | .ok a, .ok as => .ok (a :: as)
    | .error ea, .error eb => .error (ea ++ eb)
    | .error ea, .ok _ => .error ea
    | .ok _, .error eb => .error eb

/-- A required `List[...]` field with element validator `f`. -/
def parseListField (f : List String → Json → P α) (loc : List String)
    (kvs : List (String × Json)) (k : String) : P (List α) :=
  match getField kvs k with
  | none => .error [⟨loc ++ [k], "Field required"⟩]
  | some (.arr xs) => parseElems f (loc ++ [k]) 0 xs
  | some _ => .error [⟨loc ++ [k], "Input should be a valid list"⟩]

/-- The `attributes: Dict[str, Any]` field of `Extraction`: optional, with
`default_factory=dict`, so an absent key yields the empty mapping and a
present non-object value is an error. -/
def parseAttributesField (loc : List String) (kvs : List (String × Json)) : P Json :=
  match getField kvs "attributes" with
  | none => .ok (.obj [])
  | some (.obj m) => .ok (.obj m)
  | some _ => .error [⟨loc ++ ["attributes"], "Input should be a valid dictionary"⟩]

/-- Pydantic validation of an `Extraction` value. -/
def parseExtraction (loc : List String) (j : Json) : P Extraction :=
  match j with
  | .obj kvs =>
    match comb2 (comb2 (parseStrField loc kvs "extraction_class")
        (parseStrField loc kvs "extraction_text")) (parseAttributesField loc kvs) with
    | .error es => .error es
    | .ok ((c, t), a) => .ok ⟨c, t, a⟩
  | _ => .error [⟨loc, "Input should be a valid dictionary or instance of Extraction"⟩]

/-- Pydantic validation of an `Example` value. -/
def parseExample (loc : List String) (j : Json) : P Example :=
  match j with
  | .obj kvs =>
    match comb2 (parseStrField loc kvs "text")
        (parseListField parseExtraction loc kvs "extractions") with
    | .error es => .error es
    | .ok (t, exs) => .ok ⟨t, exs⟩
  | _ => .error [⟨loc, "Input should be a valid dictionary or instance of Example"⟩]

/-- FastAPI's validation of the request body against `ExtractionRequest`:
all four fields required, errors located under `body`. -/
def parseExtractionRequest (body : Json) : P ExtractionRequest :=
  match body with
  | .obj kvs =>
    match comb2 (comb2 (comb2 (parseStrField ["body"] kvs "prompt_description")
        (parseListField parseExample ["body"] kvs "examples"))
        (parseStrField ["body"] kvs "text_or_documents"))
        (parseStrField ["body"] kvs "model_id") with
    | .error es => .error es
    | .ok (((p, exs), t), m) => .ok ⟨p, exs, t, m⟩
  | _ => .error [⟨["body"], "Input should be a valid dictionary or object to extract fields from"⟩]

/-- The three response shapes the server can produce for `POST /extract`:
the 200 success envelope, a raised `HTTPException` (status plus detail
string), and FastAPI's 422 validation error carrying the field errors. -/
inductive Response where
  | success (body : ExtractionResponse) : Response
  | httpError (status : Nat) (detail : String) : Response
  | validationError (errs : List FieldError) : Response

/-- HTTP status of a response: 200 for the success envelope, the carried
status for `HTTPException`, 422 for validation errors. -/
def statusOf : Response → Nat
  | .success _ => 200
  | .httpError s _ => s
  | .validationError _ => 422

/-- JSON rendering of one validation error, as FastAPI emits it. -/
def fieldErrorJson (e : FieldError) : Json :=
  .obj [("loc", .arr (e.loc.map .str)), ("msg", .str e.msg)]

/-- The JSON body the client receives for each response shape: the
`ExtractionResponse` envelope on success; FastAPI's standard error
envelope, an object with the single key `detail`, for `HTTPException`
and for validation errors. -/
def responseBody : Response → Json
  | .success b =>
    .obj [("success", .bool b.success),
      ("result", match b.result with | none => .null | some j => j),
      ("message", match b.message with | none => .null | some s => .str s)]
  | .httpError _ d => .obj [("detail", .str d)]
  | .validationError errs => .obj [("detail", .arr (errs.map fieldErrorJson))]

/-- The `extract` handler body (main.py lines 74-157): translate the
examples, call the engine, serialize the result, return the success
envelope; any exception in the `try` block becomes
`HTTPException(500, "Extraction failed: " + str(e))`. -/
def extract (engine : EngineFn) (data : ExtractionRequest) : Response :=
  match engine data.text_or_documents data.prompt_description
      (translateExamples data.examples) data.model_id with
  | .error e => .httpError 500 ("Extraction failed: " ++ e)
  | .ok result =>
    match normalizeResult result with
    | .error e => .httpError 500 ("Extraction failed: " ++ e)
    | .ok resultDict =>
      .success ⟨true, some resultDict, some "Extraction completed successfully"⟩

/-- `POST /extract` end to end: FastAPI validates the body first and
answers 422 without entering the handler on failure; otherwise the handler
runs and calls the engine exactly once.  The second component counts the
engine invocations performed. -/
def postExtract (engine : EngineFn) (body : Json) : Response × Nat :=
  match parseExtractionRequest body with
  | .error errs => (.validationError errs, 0)
  | .ok data => (extract engine data, 1)

/-- A pydantic field as seen by schema generation: its name and whether it
is required (declared with `...`) or has a default. -/
structure PyField where
  name : String
  required : Bool
deriving DecidableEq

/-- The fields of `ExtractionRequest` as declared (main.py lines 44-56):
all four declared with `...`, hence required. -/
def extractionRequestPyFields : List PyField :=
  [⟨"prompt_description", true⟩, ⟨"examples", true⟩,
   ⟨"text_or_documents", true⟩, ⟨"model_id", true⟩]

/-- The fields of `Extraction` as declared (main.py lines 27-34):
`attributes` has `default_factory=dict`, the rest are required. -/
def extractionPyFields : List PyField :=
  [⟨"extraction_class", true⟩, ⟨"extraction_text", true⟩, ⟨"attributes", false⟩]

/-- The fields of `Example` as declared (main.py lines 37-41). -/
def examplePyFields : List PyField :=
  [⟨"text", true⟩, ⟨"extractions", true⟩]

/-- Names of the required fields, in declaration order, as pydantic's
schema generator lists them. -/
def requiredNames (fs : List PyField) : List String :=
  (fs.filter (fun f => f.required)).map (fun f => f.name)

/-- The portion of pydantic's `model_json_schema()` output the claims
observe: title, object type, the property names and the `required` list. -/
def modelJsonSchema (title : String) (fs : List PyField) : Json :=
  .obj [("title", .str title),
    ("type", .str "object"),
    ("properties", .obj (fs.map (fun f => (f.name, Json.obj [])))),
    ("required", .arr ((requiredNames fs).map .str))]

/-- The `GET /schema` endpoint (main.py lines 65-71): returns
`ExtractionRequest.model_json_schema()`. -/
def get_schema : Json :=
  modelJsonSchema "ExtractionRequest" extractionRequestPyFields

/-- A `char_interval` attribute value that cannot make the serializer
raise: either not a truthy object, or a truthy object carrying both
`start_pos` and `end_pos`. -/
def ciOk (ci : Option (Option EngineCharInterval)) : Prop :=
  ∀ c, ci = some (some c) → c.start_pos.isSome ∧ c.end_pos.isSome

/-- An engine extraction whose `char_interval` is a truthy object lacking
`start_pos` or `end_pos`: reading the missing inner field raises. -/
def badCI (e : EngineExtraction) : Prop :=
  ∃ ci, e.char_interval = some (some ci) ∧
    (ci.start_pos = none ∨ ci.end_pos = none)

/-- A stub engine that returns an empty result, echoing the input text. -/
def anyEngine : EngineFn := fun t _ _ _ => .ok ⟨t, none, []⟩

/-- A stub engine whose call raises an error with message
`model unavailable`. -/
def failEngine : EngineFn := fun _ _ _ _ => .error "model unavailable"

/-- A concrete example with unicode text, two extractions, and both an
empty and a non-empty attribute mapping. -/
def cExample0 : Example :=
  ⟨"04.11. – Holzwerkstatt offen 16:00–20:00 Uhr",
   [⟨"event", "Holzwerkstatt", .obj []⟩,
    ⟨"time", "16:00–20:00 Uhr", .obj [("unit", .str "Uhr")]⟩]⟩

/-- A concrete example list with unicode text, nested extractions and both
empty and non-empty attribute mappings. -/
def cExamples : List Example := [cExample0]

/-- A concrete well-formed request with an empty example list. -/
def cRequest : ExtractionRequest :=
  ⟨"Extract dates", [], "See you 6.6.", "test-model"⟩

/-- The request of the end-to-end scenario. -/
def c7request : ExtractionRequest :=
  ⟨"Extract dates", [⟨"Meet on 5.5.", [⟨"date", "5.5.", .obj []⟩]⟩],
    "See you 6.6.", "test-model"⟩

/-- The JSON body of the end-to-end scenario. -/
def c7body : Json :=
  .obj [("prompt_description", .str "Extract dates"),
    ("examples", .arr [.obj [("text", .str "Meet on 5.5."),
      ("extractions", .arr [.obj [("extraction_class", .str "date"),
        ("extraction_text", .str "5.5."), ("attributes", .obj [])]])]]),
    ("text_or_documents", .str "See you 6.6."),
    ("model_id", .str "test-model")]

/-- A stub engine echoing the input text and one extraction
`extraction_class = date, extraction_text = 6.6., attributes = empty
mapping` with no optional fields set. -/
def c7engine : EngineFn :=
  fun t _ _ _ => .ok ⟨t, none, [⟨"date", "6.6.", .obj [], none, none, none, none, none⟩]⟩

/-- The result the scenario expects from `POST /extract`. -/
def c7result : Json :=
  .obj [("text", .str "See you 6.6."),
    ("document_id", .null),
    ("extractions", .arr [.obj [("extraction_class", .str "date"),
      ("extraction_text", .str "6.6."), ("attributes", .obj []),
      ("char_interval", .null), ("alignment_status", .null),
      ("extraction_index", .null), ("group_index", .null),
      ("description", .null)]])]

/-- An engine result with every probed attribute absent. -/
def c2engineResult : EngineResult :=
  ⟨"t", none, [⟨"k", "v", .obj [], none, none, none, none, none⟩]⟩

/-- A request body lacking `model_id`. -/
def c5body : Json :=
  .obj [("prompt_description", .str "Extract dates"),
    ("examples", .arr []),
    ("text_or_documents", .str "See you 6.6.")]

/-- An engine extraction whose `char_interval` attribute is present but
`None`. -/
def c9ext : EngineExtraction :=
  ⟨"date", "6.6.", .obj [], some none, none, none, none, none⟩

/-- An engine result with a truthy `char_interval` object missing both
inner fields. -/
def c9badResult : EngineResult :=
  ⟨"t", none, [⟨"date", "6.6.", .obj [], some (some ⟨none, none⟩),
    none, none, none, none⟩]⟩

/-- A stub engine returning `c9badResult`. -/
def c9engine : EngineFn := fun _ _ _ _ => .ok c9badResult

/-- An engine result with two extractions, one fully populated and one
with every optional attribute absent. -/
def c10engineResult : EngineResult :=
  ⟨"text", some (.str "doc1"),
   [⟨"a", "b", .obj [("k", .str "v")],
      some (some ⟨some (.num 0), some (.num 1)⟩),
      some (.str "match_exact"), some (.num 0), some (.num 0), some (.str "d")⟩,
    ⟨"c", "d", .obj [], none, none, none, none, none⟩]⟩

/-- The serialization of `c10engineResult`. -/
def c10normalized : Json :=
  .obj [("text", .str "text"),
    ("document_id", .str "doc1"),
    ("extractions", .arr
      [.obj [("extraction_class", .str "a"), ("extraction_text", .str "b"),
        ("attributes", .obj [("k", .str "v")]),
        ("char_interval", .obj [("start_pos", .num 0), ("end_pos", .num 1)]),
        ("alignment_status", .str "match_exact"),
        ("extraction_index", .num 0), ("group_index", .num 0),
        ("description", .str "d")],
       .obj [("extraction_class", .str "c"), ("extraction_text", .str "d"),
        ("attributes", .obj []), ("char_interval", .null),
        ("alignment_status", .null), ("extraction_index", .null),
        ("group_index", .null), ("description", .null)]])]

/-! ### Helper lemmas -/

theorem mapE_ok_length {α β : Type} {f : α → Except String β} {l : List α}
    {ys : List β} (h : mapE f l = .ok ys) : ys.length = l.length := by
  induction l generalizing ys with
  | nil =>
    simp only [mapE] at h
    injection h with h2
    subst h2
    rfl
  | cons x xs ih =>
    simp only [mapE] at h
    rcases hfx : f x with e | y <;> rw [hfx] at h
    · exact absurd h (by simp)
    · rcases hrec : mapE f xs with e | ys2 <;> rw [hrec] at h
      · exact absurd h (by simp)
      · injection h with h2
        subst h2
        simp [ih hrec]

theorem mapE_ok_get {α β : Type} {f : α → Except String β} {l : List α}
    {ys : List β} (h : mapE f l = .ok ys) :
    ∀ (i : Nat) (a : α), l[i]? = some a → ∃ b, ys[i]? = some b ∧ f a = .ok b := by
  induction l generalizing ys with
  | nil => intro i a ha; simp at ha
  | cons x xs ih =>
    simp only [mapE] at h
    rcases hfx : f x with e | y <;> rw [hfx] at h
    · exact absurd h (by simp)
    · rcases hrec : mapE f xs with e | ys2 <;> rw [hrec] at h
      · exact absurd h (by simp)
      · injection h with h2
        subst h2
        intro i a ha
        cases i with
        | zero =>
          simp only [List.getElem?_cons_zero, Option.some.injEq] at ha
          subst ha
          exact ⟨y, List.getElem?_cons_zero, hfx⟩
        | succ n =>
          simp only [List.getElem?_cons_succ] at ha ⊢
          exact ih hrec n a ha

theorem mapE_ok_of_all {α β : Type} {f : α → Except String β} {l : List α}
    (h : ∀ a ∈ l, ∃ b, f a = .ok b) : ∃ ys, mapE f l = .ok ys := by
  induction l with
  | nil => exact ⟨[], rfl⟩
  | cons x xs ih =>
    obtain ⟨y, hy⟩ := h x (by simp)
    obtain ⟨ys, hys⟩ := ih (fun a ha => h a (by simp [ha]))
    exact ⟨y :: ys, by simp only [mapE]; rw [hy, hys]⟩

theorem mapE_error_of_mem {α β : Type} {f : α → Except String β} {l : List α}
    {a : α} (ha : a ∈ l) (he : ∃ m, f a = .error m) :
    ∃ m, mapE f l = .error m := by
  induction l with
  | nil => simp at ha
  | cons x xs ih =>
    rcases List.mem_cons.mp ha with rfl | hmem
    · obtain ⟨m, hm⟩ := he
      exact ⟨m, by simp only [mapE]; rw [hm]⟩
    · rcases hfx : f x with e | y
      · exact ⟨e, by simp only [mapE]; rw [hfx]⟩
      · obtain ⟨m, hm⟩ := ih hmem
        exact ⟨m, by simp only [mapE]; rw [hfx, hm]⟩

theorem normalizeExtraction_ok_shape {e : EngineExtraction} {je : Json}
    (h : normalizeExtraction e = .ok je) :
    ∃ civ, normalizeCharInterval e.char_interval = .ok civ ∧
      je = .obj
        [("extraction_class", .str e.extraction_class),
         ("extraction_text", .str e.extraction_text),
         ("attributes", e.attributes),
         ("char_interval", civ),
         ("alignment_status", optAttr e.alignment_status),
         ("extraction_index", optAttr e.extraction_index),
         ("group_index", optAttr e.group_index),
         ("description", optAttr e.description)] := by
  unfold normalizeExtraction at h
  rcases hci : normalizeCharInterval e.char_interval with m | civ <;> rw [hci] at h
  · exact absurd h (by simp)
  · injection h with h2
    exact ⟨civ, rfl, h2.symm⟩

theorem normalizeCharInterval_ok_of_ciOk {ci : Option (Option EngineCharInterval)}
    (h : ciOk ci) : ∃ v, normalizeCharInterval ci = .ok v := by
  cases ci with
  | none => exact ⟨.null, rfl⟩
  | some o =>
    cases o with
    | none => exact ⟨.null, rfl⟩
    | some c =>
      obtain ⟨hs, he⟩ := h c rfl
      obtain ⟨sp, hsp⟩ := Option.isSome_iff_exists.mp hs
      obtain ⟨ep, hep⟩ := Option.isSome_iff_exists.mp he
      exact ⟨_, by simp only [normalizeCharInterval]; rw [hsp, hep]⟩

theorem normalizeCharInterval_error_of_badCI {e : EngineExtraction}
    (h : badCI e) : ∃ m, normalizeCharInterval e.char_interval = .error m := by
  obtain ⟨ci, hci, hbad⟩ := h
  rcases hbad with hs | hend
  · exact ⟨_, by rw [hci]; simp only [normalizeCharInterval]; rw [hs]⟩
  · rcases hsp : ci.start_pos with _ | sp
    · exact ⟨_, by rw [hci]; simp only [normalizeCharInterval]; rw [hsp]⟩
    · exact ⟨_, by rw [hci]; simp only [normalizeCharInterval]; rw [hsp, hend]⟩

theorem normalizeExtraction_error_of_badCI {e : EngineExtraction}
    (h : badCI e) : ∃ m, normalizeExtraction e = .error m := by
  obtain ⟨m, hm⟩ := normalizeCharInterval_error_of_badCI h
  exact ⟨m, by unfold normalizeExtraction; rw [hm]⟩

theorem comb2_error_ne {α β : Type} {pa : P α} {pb : P β}
    (ha : ∀ E, pa = .error E → E ≠ [])
    (hb : ∀ E, pb = .error E → E ≠ [])
    {E : List FieldError} (h : comb2 pa pb = .error E) : E ≠ [] := by
  rcases pa with ea | a <;> rcases pb with eb | b
  · simp only [comb2] at h
    injection h with h2
    subst h2
    intro hnil
    exact ha ea rfl (List.append_eq_nil.mp hnil).1
  · simp only [comb2] at h
    injection h with h2
    subst h2
    exact ha ea rfl
  · simp only [comb2] at h
    injection h with h2
    subst h2
    exact hb eb rfl
  · simp [comb2] at h

theorem parseStrField_error_ne (loc : List String) (kvs : List (String × Json))
    (k : String) {E : List FieldError}
    (h : parseStrField loc kvs k = .error E) : E ≠ [] := by
  unfold parseStrField at h
  split at h <;> simp_all [eq_comm]

theorem parseElems_error_ne {α : Type} (f : List String → Json → P α)
    (hf : ∀ loc j E, f loc j = .error E → E ≠ []) (loc : List String) :
    ∀ (xs : List Json) (i : Nat) (E : List FieldError),
      parseElems f loc i xs = .error E → E ≠ [] := by
  intro xs
  induction xs with
  | nil => intro i E h; simp [parseElems] at h
  | cons x xs ih =>
    intro i E h
    simp only [parseElems] at h
    rcases hfx : f (loc ++ [toString i]) x with ea | a <;>
      rcases hrec : parseElems f loc (i + 1) xs with eb | bs <;>
      rw [hfx, hrec] at h
    · injection h with h2
      subst h2
      intro hnil
      exact hf _ _ ea hfx (List.append_eq_nil.mp hnil).1
    · injection h with h2
      subst h2
      exact hf _ _ ea hfx
    · injection h with h2
      subst h2
      exact ih (i + 1) eb hrec
    · simp at h

theorem parseListField_error_ne {α : Type} (f : List String → Json → P α)
    (hf : ∀ loc j E, f loc j = .error E → E ≠ []) (loc : List String)
    (kvs : List (String × Json)) (k : String) {E : List FieldError}
    (h : parseListField f loc kvs k = .error E) : E ≠ [] := by
  unfold parseListField at h
  split at h
  · simp_all [eq_comm]
  · exact parseElems_error_ne f hf (loc ++ [k]) _ 0 E h
  · simp_all [eq_comm]

theorem parseAttributesField_error_ne (loc : List String)
    (kvs : List (String × Json)) {E : List FieldError}
    (h : parseAttributesField loc kvs = .error E) : E ≠ [] := by
  unfold parseAttributesField at h
  split at h <;> simp_all [eq_comm]

theorem parseExtraction_error_ne :
    ∀ (loc : List String) (j : Json) (E : List FieldError),
      parseExtraction loc j = .error E → E ≠ [] := by
  intro loc j E h
  cases j with
  | obj kvs =>
    simp only [parseExtraction] at h
    rcases hc : comb2 (comb2 (parseStrField loc kvs "extraction_class")
        (parseStrField loc kvs "extraction_text"))
        (parseAttributesField loc kvs) with es | v <;> rw [hc] at h
    · injection h with h2
      subst h2
      exact comb2_error_ne
        (fun E2 hE2 => comb2_error_ne
          (fun E3 hE3 => parseStrField_error_ne loc kvs "extraction_class" hE3)
          (fun E3 hE3 => parseStrField_error_ne loc kvs "extraction_text" hE3) hE2)
        (fun E2 hE2 => parseAttributesField_error_ne loc kvs hE2) hc
    · simp at h
  | null => simp only [parseExtraction] at h; simp_all [eq_comm]
  | bool b => simp only [parseExtraction] at h; simp_all [eq_comm]
  | num n => simp only [parseExtraction] at h; simp_all [eq_comm]
  | str s => simp only [parseExtraction] at h; simp_all [eq_comm]
  | arr xs => simp only [parseExtraction] at h; simp_all [eq_comm]

theorem parseExample_error_ne :
    ∀ (loc : List String) (j : Json) (E : List FieldError),
      parseExample loc j = .error E → E ≠ [] := by
  intro loc j E h
  cases j with
  | obj kvs =>
    simp only [parseExample] at h
    rcases hc : comb2 (parseStrField loc kvs "text")
        (parseListField parseExtraction loc kvs "extractions") with es | v <;>
      rw [hc] at h
    · injection h with h2
      subst h2
      exact comb2_error_ne
        (fun E2 hE2 => parseStrField_error_ne loc kvs "text" hE2)
        (fun E2 hE2 => parseListField_error_ne parseExtraction
          parseExtraction_error_ne loc kvs "extractions" hE2) hc
    · simp at h
  | null => simp only [parseExample] at h; simp_all [eq_comm]
  | bool b => simp only [parseExample] at h; simp_all [eq_comm]
  | num n => simp only [parseExample] at h; simp_all [eq_comm]
  | str s => simp only [parseExample] at h; simp_all [eq_comm]
  | arr xs => simp only [parseExample] at h; simp_all [eq_comm]

theorem parseExtractionRequest_error_ne (body : Json) (E : List FieldError)
    (h : parseExtractionRequest body = .error E) : E ≠ [] := by
  cases body with
  | obj kvs =>
    simp only [parseExtractionRequest] at h
    rcases hc : comb2 (comb2 (comb2 (parseStrField ["body"] kvs "prompt_description")
        (parseListField parseExample ["body"] kvs "examples"))
        (parseStrField ["body"] kvs "text_or_documents"))
        (parseStrField ["body"] kvs "model_id") with es | v <;> rw [hc] at h
    · injection h with h2
      subst h2
      exact comb2_error_ne
        (fun E2 hE2 => comb2_error_ne
          (fun E3 hE3 => comb2_error_ne
            (fun E4 hE4 => parseStrField_error_ne ["body"] kvs "prompt_description" hE4)
            (fun E4 hE4 => parseListField_error_ne parseExample
              parseExample_error_ne ["body"] kvs "examples" hE4) hE3)
          (fun E3 hE3 => parseStrField_error_ne ["body"] kvs "text_or_documents" hE3) hE2)
        (fun E2 hE2 => parseStrField_error_ne ["body"] kvs "model_id" hE2) hc
    · simp at h
  | null => simp only [parseExtractionRequest] at h; simp_all [eq_comm]
  | bool b => simp only [parseExtractionRequest] at h; simp_all [eq_comm]
  | num n => simp only [parseExtractionRequest] at h; simp_all [eq_comm]
  | str s => simp only [parseExtractionRequest] at h; simp_all [eq_comm]
  | arr xs => simp only [parseExtractionRequest] at h; simp_all [eq_comm]

theorem extract_eq_error {engine : EngineFn} {data : ExtractionRequest}
    {e : String}
    (he : engine data.text_or_documents data.prompt_description
      (translateExamples data.examples) data.model_id = .error e) :
    extract engine data = .httpError 500 ("Extraction failed: " ++ e) := by
  unfold extract
  rw [he]

theorem extract_eq_ok {engine : EngineFn} {data : ExtractionRequest}
    {r : EngineResult}
    (he : engine data.text_or_documents data.prompt_description
      (translateExamples data.examples) data.model_id = .ok r) :
    extract engine data =
      match normalizeResult r with
      | .error e => .httpError 500 ("Extraction failed: " ++ e)
      | .ok resultDict =>
        .success ⟨true, some resultDict, some "Extraction completed successfully"⟩ := by
  unfold extract
  rw [he]

/-! ### Claims -/

/-- C1: for every engine and every well-formed `ExtractionRequest`, the
`POST /extract` handler returns either `success = true` with a non-null
result and non-null message, or a failure response carrying a non-null
message (the `detail` string of the 500 error); it never returns
`success = true` with a null result, and never a response in which both
the result and the message are null. -/
theorem extract_success_or_failure_message (engine : EngineFn)
    (data : ExtractionRequest) :
    (∃ j, extract engine data =
      .success ⟨true, some j, some "Extraction completed successfully"⟩) ∨
    (∃ d, extract engine data = .httpError 500 d ∧
      lookupKey (responseBody (extract engine data)) "detail" = some (.str d)) := by
  rcases he : engine data.text_or_documents data.prompt_description
      (translateExamples data.examples) data.model_id with e | r
  · rw [extract_eq_error he]
    right
    exact ⟨_, rfl, rfl⟩
  · rcases hn : normalizeResult r with e | j
    · rw [extract_eq_ok he, hn]
      right
      exact ⟨_, rfl, rfl⟩
    · rw [extract_eq_ok he, hn]
      left
      exact ⟨j, rfl⟩

/-- C3: translating an `Example` list into the engine's native
representation preserves the order of examples and of their extractions
and passes `extraction_class`, `extraction_text` and `attributes` through
exactly, with no transformation of values. -/
theorem translate_examples_preserves (exs : List Example) :
    (translateExamples exs).length = exs.length ∧
    ∀ (i : Nat) (ex : Example), exs[i]? = some ex →
      ∃ lex, (translateExamples exs)[i]? = some lex ∧
        lex.text = ex.text ∧
        lex.extractions.length = ex.extractions.length ∧
        ∀ (j : Nat) (e : Extraction), ex.extractions[j]? = some e →
          lex.extractions[j]? =
            some ⟨e.extraction_class, e.extraction_text, e.attributes⟩ := by
  refine ⟨by simp [translateExamples], ?_⟩
  intro i ex h
  refine ⟨toLxExample ex, ?_, rfl, by simp [toLxExample], ?_⟩
  · simp [translateExamples, List.getElem?_map, h]
  · intro j e hj
    simp [toLxExample, List.getElem?_map, hj, toLxExtraction]

/-- C3 witness: the preservation theorem evaluated on a unicode example
with an empty and a non-empty attribute mapping. -/
theorem translate_examples_preserves_witness :
    ∃ lex, (translateExamples cExamples)[0]? = some lex ∧
      lex.text = cExample0.text ∧
      lex.extractions.length = cExample0.extractions.length ∧
      ∀ (j : Nat) (e : Extraction), cExample0.extractions[j]? = some e →
        lex.extractions[j]? =
          some ⟨e.extraction_class, e.extraction_text, e.attributes⟩ :=
  (translate_examples_preserves cExamples).2 0 cExample0 rfl

/-- C6: the schema returned by `GET /schema` has a `required` list whose
members are exactly `prompt_description`, `examples`, `text_or_documents`
and `model_id`, no more and no fewer. -/
theorem schema_required_fields :
    lookupKey get_schema "required" =
      some (.arr [.str "prompt_description", .str "examples",
        .str "text_or_documents", .str "model_id"]) ∧
    ∀ s : String, s ∈ requiredNames extractionRequestPyFields ↔
      (s = "prompt_description" ∨ s = "examples" ∨
       s = "text_or_documents" ∨ s = "model_id") := by
  refine ⟨rfl, ?_⟩
  intro s
  simp [requiredNames, extractionRequestPyFields]

/-- C7: the end-to-end scenario: the given request body validates to the
given request, and against the stub engine echoing one `date` extraction
with no optional fields set, `POST /extract` returns `success = true`,
the fully null-padded result, and the message
`Extraction completed successfully`. -/
theorem scenario_extract_dates :
    parseExtractionRequest c7body = .ok c7request ∧
    extract c7engine c7request =
      .success ⟨true, some c7result, some "Extraction completed successfully"⟩ :=
  ⟨rfl, rfl⟩

/-- C8: in the `ExtractionRequest` input contract every field is required
except an `Extraction`'s `attributes`, which defaults to the empty mapping
when absent instead of causing a validation error: an extraction object
without `attributes` validates with the empty mapping, one with
`attributes` keeps it, and omitting any other field of `Extraction`,
`Example` or `ExtractionRequest` produces a `Field required` error. -/
theorem required_fields_except_attributes :
    (∀ (loc : List String) (c t : String),
      parseExtraction loc
          (.obj [("extraction_class", .str c), ("extraction_text", .str t)]) =
        .ok ⟨c, t, .obj []⟩) ∧
    (∀ (loc : List String) (c t : String) (a : List (String × Json)),
      parseExtraction loc
          (.obj [("extraction_class", .str c), ("extraction_text", .str t),
            ("attributes", .obj a)]) =
        .ok ⟨c, t, .obj a⟩) ∧
    parseExtraction ["body"] (.obj [("extraction_text", .str "5.5.")]) =
      .error [⟨["body", "extraction_class"], "Field required"⟩] ∧
    parseExtraction ["body"] (.obj [("extraction_class", .str "date")]) =
      .error [⟨["body", "extraction_text"], "Field required"⟩] ∧
    parseExample ["body"] (.obj [("extractions", .arr [])]) =
      .error [⟨["body", "text"], "Field required"⟩] ∧
    parseExample ["body"] (.obj [("text", .str "x")]) =
      .error [⟨["body", "extractions"], "Field required"⟩] ∧
    parseExtractionRequest (.obj []) =
      .error [⟨["body", "prompt_description"], "Field required"⟩,
        ⟨["body", "examples"], "Field required"⟩,
        ⟨["body", "text_or_documents"], "Field required"⟩,
        ⟨["body", "model_id"], "Field required"⟩] :=
  ⟨fun _ _ _ => rfl, fun _ _ _ _ => rfl, rfl, rfl, rfl, rfl, rfl⟩

/-- C2: serialization of an engine result is total over missing probed
attributes: as long as no extraction carries a truthy `char_interval`
object lacking its inner fields, the result serializes without raising,
and every absent probed attribute (`char_interval`, `alignment_status`,
`extraction_index`, `group_index`, `description` on an extraction,
`document_id` on the document) appears in the output as null rather than
being omitted. -/
theorem normalize_missing_fields_null (r : EngineResult)
    (hci : ∀ e ∈ r.extractions, ciOk e.char_interval) :
    ∃ j, normalizeResult r = .ok j ∧
      (r.document_id = none → lookupKey j "document_id" = some .null) ∧
      ∃ exts, lookupKey j "extractions" = some (.arr exts) ∧
        ∀ (i : Nat) (e : EngineExtraction), r.extractions[i]? = some e →
          ∃ je, exts[i]? = some je ∧
            (e.char_interval = none →
              lookupKey je "char_interval" = some .null) ∧
            (e.alignment_status = none →
              lookupKey je "alignment_status" = some .null) ∧
            (e.extraction_index = none →
              lookupKey je "extraction_index" = some .null) ∧
            (e.group_index = none →
              lookupKey je "group_index" = some .null) ∧
            (e.description = none →
              lookupKey je "description" = some .null) := by
  have hall : ∀ e ∈ r.extractions, ∃ b, normalizeExtraction e = .ok b := by
    intro e he
    obtain ⟨v, hv⟩ := normalizeCharInterval_ok_of_ciOk (hci e he)
    exact ⟨_, by unfold normalizeExtraction; rw [hv]⟩
  obtain ⟨exts, hm⟩ := mapE_ok_of_all hall
  refine ⟨.obj [("text", .str r.text), ("document_id", optAttr r.document_id),
    ("extractions", .arr exts)], ?_, ?_, exts, rfl, ?_⟩
  · unfold normalizeResult
    rw [hm]
  · intro hd
    rw [hd]
    rfl
  · intro i e he
    obtain ⟨je, hje, hfe⟩ := mapE_ok_get hm i e he
    obtain ⟨civ, hciv, rfl⟩ := normalizeExtraction_ok_shape hfe
    refine ⟨_, hje, ?_, ?_, ?_, ?_, ?_⟩
    · intro hc
      rw [hc] at hciv
      injection hciv with h5
      subst h5
      rfl
    · intro ha
      rw [ha]
      rfl
    · intro ha
      rw [ha]
      rfl
    · intro ha
      rw [ha]
      rfl
    · intro ha
      rw [ha]
      rfl

/-- C2 witness: the totality theorem evaluated on an engine result whose
extraction has every probed attribute absent. -/
theorem normalize_missing_fields_null_witness :
    ∃ j, normalizeResult c2engineResult = .ok j ∧
      (c2engineResult.document_id = none →
        lookupKey j "document_id" = some .null) ∧
      ∃ exts, lookupKey j "extractions" = some (.arr exts) ∧
        ∀ (i : Nat) (e : EngineExtraction),
          c2engineResult.extractions[i]? = some e →
          ∃ je, exts[i]? = some je ∧
            (e.char_interval = none →
              lookupKey je "char_interval" = some .null) ∧
            (e.alignment_status = none →
              lookupKey je "alignment_status" = some .null) ∧
            (e.extraction_index = none →
              lookupKey je "extraction_index" = some .null) ∧
            (e.group_index = none →
              lookupKey je "group_index" = some .null) ∧
            (e.description = none →
              lookupKey je "description" = some .null) :=
  normalize_missing_fields_null c2engineResult (by
    intro e he c hc
    simp only [c2engineResult] at he
    rw [List.mem_singleton] at he
    subst he
    simp at hc)

/-- C4 counterexample: when the engine raises `model unavailable` on a
well-formed request, the handler responds with HTTP 500 whose body is the
standard `HTTPException` envelope holding only the key `detail`; the body
has no `success` key at all, so it is not `success:false`-shaped as the
claim states. -/
theorem engine_failure_not_success_shaped :
    extract failEngine cRequest =
      .httpError 500 "Extraction failed: model unavailable" ∧
    lookupKey (responseBody (extract failEngine cRequest)) "success" = none ∧
    lookupKey (responseBody (extract failEngine cRequest)) "detail" =
      some (.str "Extraction failed: model unavailable") :=
  ⟨rfl, rfl, rfl⟩

/-- C4 amended: every exception raised during the engine call makes
`POST /extract` respond with status 500 and the standard HTTP error body,
an object with the single key `detail` (no `success` field), whose value
is `Extraction failed: ` followed by the original failure text, so the
original message appears as a substring. -/
theorem engine_failure_http500 (engine : EngineFn) (data : ExtractionRequest)
    (msg : String)
    (h : engine data.text_or_documents data.prompt_description
      (translateExamples data.examples) data.model_id = .error msg) :
    extract engine data = .httpError 500 ("Extraction failed: " ++ msg) ∧
    statusOf (extract engine data) = 500 ∧
    responseBody (extract engine data) =
      .obj [("detail", .str ("Extraction failed: " ++ msg))] ∧
    ∃ pre post, "Extraction failed: " ++ msg = pre ++ msg ++ post := by
  have h0 := extract_eq_error h
  refine ⟨h0, ?_, ?_, "Extraction failed: ", "", by simp⟩
  · rw [h0]
    rfl
  · rw [h0]
    rfl

/-- C4 witness: the amended theorem evaluated with the stub engine whose
error message is `model unavailable`. -/
theorem engine_failure_http500_witness :
    extract failEngine cRequest =
      .httpError 500 "Extraction failed: model unavailable" ∧
    statusOf (extract failEngine cRequest) = 500 ∧
    responseBody (extract failEngine cRequest) =
      .obj [("detail", .str "Extraction failed: model unavailable")] ∧
    ∃ pre post, "Extraction failed: model unavailable" =
      pre ++ "model unavailable" ++ post :=
  engine_failure_http500 failEngine cRequest "model unavailable" rfl

/-- C5: whenever the request body fails validation against
`ExtractionRequest`, `POST /extract` answers with the 422 validation
error carrying the non-empty field-level diagnostics, and the engine is
invoked zero times. -/
theorem validation_error_before_engine (engine : EngineFn) (body : Json)
    (errs : List FieldError)
    (h : parseExtractionRequest body = .error errs) :
    postExtract engine body = (.validationError errs, 0) ∧
    statusOf (postExtract engine body).1 = 422 ∧ errs ≠ [] := by
  have h0 : postExtract engine body = (.validationError errs, 0) := by
    unfold postExtract
    rw [h]
  exact ⟨h0, by rw [h0]; rfl, parseExtractionRequest_error_ne body errs h⟩

/-- C5 witness: the validation theorem evaluated on a body lacking
`model_id`: status 422, a `Field required` diagnostic at
`body.model_id`, and zero engine calls. -/
theorem validation_error_before_engine_witness :
    postExtract anyEngine c5body =
      (.validationError [⟨["body", "model_id"], "Field required"⟩], 0) ∧
    statusOf (postExtract anyEngine c5body).1 = 422 ∧
    ([⟨["body", "model_id"], "Field required"⟩] : List FieldError) ≠ [] :=
  validation_error_before_engine anyEngine c5body
    [⟨["body", "model_id"], "Field required"⟩] rfl

/-- C9: a `char_interval` attribute that is present but `None` serializes
to null (the truthiness guard short-circuits, so `start_pos` and
`end_pos` are never read), while a truthy `char_interval` object lacking
`start_pos` or `end_pos` makes the whole request fail with the generic
500 `Extraction failed` error instead of producing null. -/
theorem char_interval_probe :
    (∀ e : EngineExtraction, e.char_interval = some none →
      ∃ j, normalizeExtraction e = .ok j ∧
        lookupKey j "char_interval" = some .null) ∧
    (∀ (engine : EngineFn) (data : ExtractionRequest) (r : EngineResult),
      engine data.text_or_documents data.prompt_description
        (translateExamples data.examples) data.model_id = .ok r →
      (∃ e ∈ r.extractions, badCI e) →
      ∃ msg, extract engine data =
        .httpError 500 ("Extraction failed: " ++ msg)) := by
  constructor
  · intro e h
    refine ⟨.obj
      [("extraction_class", .str e.extraction_class),
       ("extraction_text", .str e.extraction_text),
       ("attributes", e.attributes),
       ("char_interval", .null),
       ("alignment_status", optAttr e.alignment_status),
       ("extraction_index", optAttr e.extraction_index),
       ("group_index", optAttr e.group_index),
       ("description", optAttr e.description)], ?_, rfl⟩
    unfold normalizeExtraction
    rw [h]
    rfl
  · intro engine data r he hbad
    obtain ⟨e, hmem, hb⟩ := hbad
    obtain ⟨m, hm⟩ := mapE_error_of_mem hmem (normalizeExtraction_error_of_badCI hb)
    have h2 : normalizeResult r = .error m := by
      unfold normalizeResult
      rw [hm]
    refine ⟨m, ?_⟩
    rw [extract_eq_ok he, h2]

/-- C9 witness: both parts evaluated: an extraction with
`char_interval = None` serializes to null, and an engine returning a
truthy `char_interval` object with no inner fields makes the request
fail with the generic 500 error. -/
theorem char_interval_probe_witness :
    (∃ j, normalizeExtraction c9ext = .ok j ∧
      lookupKey j "char_interval" = some .null) ∧
    (∃ msg, extract c9engine cRequest =
      .httpError 500 ("Extraction failed: " ++ msg)) :=
  ⟨char_interval_probe.1 c9ext rfl,
   char_interval_probe.2 c9engine cRequest c9badResult rfl
     ⟨⟨"date", "6.6.", .obj [], some (some ⟨none, none⟩), none, none, none, none⟩,
      by simp [c9badResult],
      ⟨⟨none, none⟩, rfl, Or.inl rfl⟩⟩⟩

/-- C10: for every engine result that serializes successfully, the
output's extraction list has the same length and order as the engine
result's, and each entry carries `extraction_class`, `extraction_text`
and `attributes` copied through unchanged. -/
theorem normalize_preserves_order (r : EngineResult) (j : Json)
    (h : normalizeResult r = .ok j) :
    ∃ exts, lookupKey j "extractions" = some (.arr exts) ∧
      exts.length = r.extractions.length ∧
      ∀ (i : Nat) (e : EngineExtraction), r.extractions[i]? = some e →
        ∃ je, exts[i]? = some je ∧
          lookupKey je "extraction_class" = some (.str e.extraction_class) ∧
          lookupKey je "extraction_text" = some (.str e.extraction_text) ∧
          lookupKey je "attributes" = some e.attributes := by
  unfold normalizeResult at h
  rcases hm : mapE normalizeExtraction r.extractions with m | exts <;> rw [hm] at h
  · exact absurd h (by simp)
  · injection h with h2
    subst h2
    refine ⟨exts, rfl, mapE_ok_length hm, ?_⟩
    intro i e he
    obtain ⟨je, hje, hfe⟩ := mapE_ok_get hm i e he
    obtain ⟨civ, hciv, rfl⟩ := normalizeExtraction_ok_shape hfe
    exact ⟨_, hje, rfl, rfl, rfl⟩

/-- C10 witness: the preservation theorem evaluated on a two-extraction
engine result, one fully populated and one with all optional attributes
absent. -/
theorem normalize_preserves_order_witness :
    ∃ exts, lookupKey c10normalized "extractions" = some (.arr exts) ∧
      exts.length = c10engineResult.extractions.length ∧
      ∀ (i : Nat) (e : EngineExtraction),
        c10engineResult.extractions[i]? = some e →
        ∃ je, exts[i]? = some je ∧
          lookupKey je "extraction_class" = some (.str e.extraction_class) ∧
          lookupKey je "extraction_text" = some (.str e.extraction_text) ∧
          lookupKey je "attributes" = some e.attributes :=
  normalize_preserves_order c10engineResult c10normalized rfl

end Extractor
